import Mathlib

/-!
Verification of the DocBook translator (`sphinx_docbook/docbook_writer.py`).

The development shallowly embeds the translator's visitor methods and its
stack-discipline output builder.  Machine-level details that the source
delegates to libraries are modelled by their documented semantics:

* `lxml.etree.TreeBuilder` is modelled as an append-only list of builder
  events (`start`, `data`, `end`) plus the translator's own `estack` of open
  tags; `TreeBuilder.close` (called from `astext`) fails when open elements
  remain, so serialization with a non-empty stack yields an error and no
  bytes.
* docutils' `Node.walkabout` driver is modelled by `walk`: visit the node,
  then its children (unless the visit raised `SkipNode`), then depart.
* Python `dict` assignment / deletion on attribute dictionaries is modelled
  on association lists with unique keys (`dictSet`, `dictDel`, `dictGet`).
* In-place mutations of the input tree (`node['ids'][0] = ...` in
  `visit_section`, `node.clear()` in `visit_field_body`) are modelled by the
  visit function returning the mutated identifier list, resp. a flag telling
  the driver that the children were removed.  An out-of-range list
  assignment is an `IndexError`, modelled as `Except.error`.
-/

namespace SphinxDocbook

/-- Attribute dictionaries: ordered association lists; a `none` value models
Python's `None` attribute value (cf. the deletion branch of `_push_element`). -/
abbrev Attribs := List (String × Option String)

/-- The reserved namespace-qualified id attribute key,
`'\x7bhttp://www.w3.org/XML/1998/namespace\x7did'` in the source. -/
def NSID : String := "\x7bhttp://www.w3.org/XML/1998/namespace\x7did"

/-- Python dict assignment `d[k] = v`: overwrite an existing binding in place,
else append a new one. -/
def dictSet {α : Type} : List (String × α) → String → α → List (String × α)
  | [], k, v => [(k, v)]
  | (k', v') :: rest, k, v =>
    if k' = k then (k, v) :: rest else (k', v') :: dictSet rest k v

/-- Python dict lookup `d[k]` (as an option): first binding for `k`. -/
def dictGet {α : Type} : List (String × α) → String → Option α
  | [], _ => none
  | (k', v') :: rest, k => if k' = k then some v' else dictGet rest k

/-- Python dict deletion `del d[k]`. -/
def dictDel {α : Type} : List (String × α) → String → List (String × α)
  | [], _ => []
  | (k', v') :: rest, k =>
    if k' = k then dictDel rest k else (k', v') :: dictDel rest k

/-- Python truthiness of an optional string: `None` and `''` are falsy. -/
def pyTruthy : Option String → Bool
  | none => false
  | some s => !(s = "")

/-- One `lxml.etree.TreeBuilder` event: `start` an element, append character
`data`, or `end` (close) the innermost element. -/
inductive BEvent where
  | start (name : String) (attribs : Attribs)
  | data (s : String)
  | stop (name : String)
deriving DecidableEq

/-- The input doctree node kinds exercised by the verified properties,
mirroring the docutils node classes the translator dispatches on.  `image`
carries the attributes `visit_image` reads (`uri`, `alt`, `align`, `scale`,
`target`-presence); `target` carries its optional `refid`. -/
inductive Node where
  | text (s : String)
  | section (ids : List String) (children : List Node)
  | paragraph (children : List Node)
  | target (refid : Option String)
  | fieldList (children : List Node)
  | field (children : List Node)
  | fieldName (children : List Node)
  | fieldBody (children : List Node)
  | image (uri alt align : Option String) (scale : Option Int) (hasTarget : Bool)
  | figure (children : List Node)
  | comment (children : List Node)

mutual

/-- docutils `Node.astext`: text nodes return their payload; element nodes
join their children's texts with the class's `child_text_separator`
(`''` for `TextElement`s such as paragraphs, field names and targets, `'\n'`
for comments, `'\n\n'` for plain `Element`s). -/
def Node.astext : Node → String
  | .text s => s
  | .section _ cs => String.intercalate "\n\n" (astexts cs)
  | .paragraph cs => String.intercalate "" (astexts cs)
  | .target _ => ""
  | .fieldList cs => String.intercalate "\n\n" (astexts cs)
  | .field cs => String.intercalate "\n\n" (astexts cs)
  | .fieldName cs => String.intercalate "" (astexts cs)
  | .fieldBody cs => String.intercalate "\n\n" (astexts cs)
  | .image _ _ _ _ _ => ""
  | .figure cs => String.intercalate "\n\n" (astexts cs)
  | .comment cs => String.intercalate "\n" (astexts cs)

/-- `astext` of every node in a list. -/
def astexts : List Node → List String
  | [] => []
  | n :: ns => Node.astext n :: astexts ns

end

/-- The mutable state of `DocBookTranslator`, together with the builder's
event log (`events`) and the diagnostics written by `_print_error`. -/
structure Translator where
  document_type : String
  document_id : String
  in_first_section : Bool
  in_figure : Bool
  next_element_id : Option String
  current_field_name : Option String
  fields : List (String × String)
  estack : List String
  events : List BEvent
  diagnostics : List String
deriving DecidableEq

/-- `DocBookTranslator.__init__`: fresh per-translation state. -/
def initTranslator (document_type document_id : String) : Translator :=
  { document_type := document_type
    document_id := document_id
    in_first_section := false
    in_figure := false
    next_element_id := none
    current_field_name := none
    fields := []
    estack := []
    events := []
    diagnostics := [] }

/-- `_print_error`: emits a diagnostic on the error channel; never affects
the output tree. -/
def _print_error (t : Translator) (text : String) : Translator :=
  { t with diagnostics := t.diagnostics ++ [text] }

/-- Is the character admissible in XML text per `_sanitize_xml_text`'s
predicate `ord(c) >= 32 or c in '\t\n\r'`? -/
def allowedXmlChar (c : Char) : Bool :=
  32 ≤ c.toNat || c = '\t' || c = '\n' || c = '\r'

/-- `DocBookTranslator._sanitize_xml_text`: `None` maps to `''`; if the text
contains a NUL or any control character below 0x20 other than tab/LF/CR, it
is rebuilt with each offending character replaced by the empty string (the
generator also filters NULs); otherwise it is returned unchanged. -/
def _sanitize_xml_text (text : Option String) : String :=
  match text with
  | none => ""
  | some text_str =>
    if text_str.data.contains '\x00'
        || text_str.data.any (fun c => c.toNat < 32 && !(c = '\t' || c = '\n' || c = '\r')) then
      ⟨(((text_str.data.filter (fun c => !(c = '\x00'))).map
          (fun c => if allowedXmlChar c then [c] else [])).flatten)⟩
    else
      text_str

/-- `_push_element`: if the deferred identifier register is (truthily) set,
it overwrites the namespace id attribute and is cleared; otherwise an
explicitly supplied `None`-valued namespace id attribute is deleted.  Then a
`start` event is emitted and the tag is pushed on `estack`. -/
def _push_element (t : Translator) (name : String) (attribs : Attribs) : Translator :=
  let (attribs, t) :=
    if pyTruthy t.next_element_id then
      (dictSet attribs NSID t.next_element_id, { t with next_element_id := none })
    else if dictGet attribs NSID = some none then
      (dictDel attribs NSID, t)
    else
      (attribs, t)
  { t with
    events := t.events ++ [BEvent.start name attribs]
    estack := name :: t.estack }

/-- `_pop_element`: `estack.pop()` raises `IndexError` on an empty stack;
otherwise the popped tag is closed with an `end` event. -/
def _pop_element (t : Translator) : Except String Translator :=
  match t.estack with
  | [] => Except.error "IndexError: pop from empty list"
  | tag :: rest =>
    Except.ok { t with estack := rest, events := t.events ++ [BEvent.stop tag] }

/-- `TreeBuilder.data`: append character data. -/
def tbData (t : Translator) (s : String) : Translator :=
  { t with events := t.events ++ [BEvent.data s] }

/-- `astext`: serialize the finished tree.  `TreeBuilder.close` fails when
open elements remain (or no element was ever started), so serialization with
a non-empty `estack` is an error and returns no bytes; the produced byte
stream is abstracted as the event log. -/
def astext (t : Translator) : Except String (List BEvent) :=
  if t.estack = [] then
    if t.events = [] then Except.error "XMLSyntaxError: no element found"
    else Except.ok t.events
  else Except.error "XMLSyntaxError: incomplete document"

/-- `visit_Text`: append the node's sanitized text as character data. -/
def visit_Text (t : Translator) (s : String) : Translator :=
  tbData t (_sanitize_xml_text (some s))

/-- `visit_paragraph`: open a `para` element unless inside a field
(`current_field_name is None` test). -/
def visit_paragraph (t : Translator) : Translator :=
  if t.current_field_name = none then _push_element t "para" [] else t

/-- `depart_paragraph`: close the `para` element unless inside a field (the
`ValueError` re-raise around `_pop_element` does not change the outcome). -/
def depart_paragraph (t : Translator) : Except String Translator :=
  if t.current_field_name = none then _pop_element t else Except.ok t

/-- `visit_section`, else-branch (a subsequent section with no truthy
deferred identifier): the nested `section` element takes the node's own
first identifier when the identifier list is non-empty. -/
def sectionElse (t : Translator) (ids : List String) :
    Except String (Translator × List String) :=
  match ids with
  | [] => Except.ok (_push_element t "section" [], ids)
  | i :: _ => Except.ok (_push_element t "section" [(NSID, some i)], ids)

/-- `visit_section`: the first section becomes the document root element
(tagged `document_type`, namespace id `document_id`, `version="5.0"`) after
overwriting `node['ids'][0]` with `document_id` — an `IndexError` when the
node's identifier list is empty.  Subsequent sections open a nested
`section`, preferring a truthy deferred identifier (again overwriting
`node['ids'][0]`, again an `IndexError` on an empty list), else the node's
own first identifier, else no id attribute.  The returned list is the
mutated `node['ids']`. -/
def visit_section (t : Translator) (ids : List String) :
    Except String (Translator × List String) :=
  if t.in_first_section = false then
    match ids with
    | [] => Except.error "IndexError: list assignment index out of range"
    | _ :: rest =>
      let t := _push_element t t.document_type
        [(NSID, some t.document_id), ("version", some "5.0")]
      Except.ok ({ t with in_first_section := true }, t.document_id :: rest)
  else
    match t.next_element_id with
    | some nid =>
      if nid = "" then sectionElse t ids
      else
        match ids with
        | [] => Except.error "IndexError: list assignment index out of range"
        | _ :: rest =>
          let t := { t with next_element_id := none }
          Except.ok (_push_element t "section" [(NSID, some nid)], nid :: rest)
    | none => sectionElse t ids

/-- `depart_section`: close the section (or root) element. -/
def depart_section (t : Translator) : Except String Translator :=
  _pop_element t

/-- `visit_target`: a target with a `refid` other than `'index-0'` stores it
in the deferred-identifier register for the next opened element. -/
def visit_target (t : Translator) (refid : Option String) : Translator :=
  match refid with
  | some r => if r = "index-0" then t else { t with next_element_id := some r }
  | none => t

/-- `visit_field_list`: open the `info` metadata container. -/
def visit_field_list (t : Translator) : Translator :=
  _push_element t "info" []

/-- `depart_field_list`: close `info`. -/
def depart_field_list (t : Translator) : Except String Translator :=
  _pop_element t

/-- `visit_field_name`: an `author` field opens `author`/`personname`
wrappers, a `date` field opens `pubdate`; the field name (the node's
flattened text) is stored in `current_field_name`.  The method then raises
`SkipNode`, so the name's children are never visited. -/
def visit_field_name (t : Translator) (node : Node) : Translator :=
  let name := node.astext
  let t :=
    if name = "author" then _push_element (_push_element t "author" []) "personname" []
    else if name = "date" then _push_element t "pubdate" []
    else t
  { t with current_field_name := some name }

/-- `visit_field_body`: with a truthy captured field name, record the body's
flattened text in the metadata map (children are then still visited);
otherwise `node.clear()` removes the children (returned flag `true`) and
nothing is recorded. -/
def visit_field_body (t : Translator) (bodyText : String) : Translator × Bool :=
  match t.current_field_name with
  | some name =>
    if name = "" then (t, true)
    else ({ t with fields := dictSet t.fields name bodyText }, false)
  | none => (t, true)

/-- `depart_field_body`: close the wrappers opened for recognized field
names and clear the captured field name (only when it is truthy). -/
def depart_field_body (t : Translator) : Except String Translator :=
  match t.current_field_name with
  | some name =>
    if name = "" then Except.ok t
    else do
      let t ←
        if name = "author" then do
          let t ← _pop_element t
          _pop_element t
        else if name = "date" then _pop_element t
        else pure t
      pure { t with current_field_name := none }
  | none => Except.ok t

/-- The `imagedata` attribute dictionary built by `visit_image`: `fileref`
from the `uri` attribute (a placeholder `eek` entry otherwise — the source
stringifies the node there, abstracted here as a fixed rendering); `height`
and `width` are ignored; `scale` is stringified; `align` values
top/middle/bottom become `valign`, others stay `align`. -/
def imagedata_attribs (uri align : Option String) (scale : Option Int) : Attribs :=
  let attribs : Attribs :=
    match uri with
    | some u => [("fileref", some u)]
    | none => [("eek", some "<image/>")]
  let attribs :=
    match scale with
    | some s => dictSet attribs "scale" (some (toString s))
    | none => attribs
  match align with
  | some alignval =>
    if alignval = "top" || alignval = "middle" || alignval = "bottom" then
      dictSet attribs "valign" (some alignval)
    else
      dictSet attribs "align" (some alignval)
  | none => attribs

/-- `visit_image`: open a `mediaobject` only when not inside a figure, then
an `imageobject`; warn if a `target` attribute is present; emit the
self-contained `imagedata`; and, when `alt` text is present, a
`textobject`/`phrase` pair holding the sanitized alt text. -/
def visit_image (t : Translator) (uri alt align : Option String)
    (scale : Option Int) (hasTarget : Bool) : Except String Translator := do
  let t := if t.in_figure = false then _push_element t "mediaobject" [] else t
  let t := _push_element t "imageobject" []
  let t :=
    if hasTarget then _print_error t "no target attribute supported for images!" else t
  let t := _push_element t "imagedata" (imagedata_attribs uri align scale)
  let t ← _pop_element t
  match alt with
  | some a =>
    let t := _push_element t "textobject" []
    let t := _push_element t "phrase" []
    let t := tbData t (_sanitize_xml_text (some a))
    let t ← _pop_element t
    _pop_element t
  | none => pure t

/-- `depart_image`: close `imageobject`, and the auto-created `mediaobject`
when no figure encloses the image. -/
def depart_image (t : Translator) : Except String Translator := do
  let t ← _pop_element t
  if t.in_figure = false then _pop_element t else pure t

/-- `visit_figure`: open the `mediaobject` wrapper and set `in_figure`. -/
def visit_figure (t : Translator) : Translator :=
  { _push_element t "mediaobject" [] with in_figure := true }

/-- `depart_figure`: close the wrapper and clear `in_figure`. -/
def depart_figure (t : Translator) : Except String Translator := do
  let t ← _pop_element t
  pure { t with in_figure := false }

/-- `visit_comment`: report the ignored comment and raise `SkipNode`. -/
def visit_comment (t : Translator) : Translator :=
  _print_error t "ignoring comment:"

mutual

/-- docutils `walkabout` over the embedded node kinds: run the node's visit
method, then (unless it raised `SkipNode` or cleared the children) the
children in document order, then the depart method.  `field` and `target`
have pass-through visit/depart methods; `fieldName` and `comment` raise
`SkipNode`, so their children and departs are skipped. -/
def walk : Node → Translator → Except String Translator
  | .text s, t => Except.ok (visit_Text t s)
  | .section ids cs, t => do
    let (t, _mutatedIds) ← visit_section t ids
    let t ← walkChildren cs t
    depart_section t
  | .paragraph cs, t => do
    let t := visit_paragraph t
    let t ← walkChildren cs t
    depart_paragraph t
  | .target refid, t => Except.ok (visit_target t refid)
  | .fieldList cs, t => do
    let t := visit_field_list t
    let t ← walkChildren cs t
    depart_field_list t
  | .field cs, t => walkChildren cs t
  | .fieldName cs, t => Except.ok (visit_field_name t (.fieldName cs))
  | .fieldBody cs, t => do
    let (t, cleared) := visit_field_body t (Node.astext (.fieldBody cs))
    let t ← if cleared then pure t else walkChildren cs t
    depart_field_body t
  | .image uri alt align scale hasTarget, t => do
    let t ← visit_image t uri alt align scale hasTarget
    depart_image t
  | .figure cs, t => do
    let t := visit_figure t
    let t ← walkChildren cs t
    depart_figure t
  | .comment _, t => Except.ok (visit_comment t)

/-- Walk a list of sibling nodes left to right. -/
def walkChildren : List Node → Translator → Except String Translator
  | [], t => Except.ok t
  | n :: ns, t => do
    let t ← walk n t
    walkChildren ns t

end

/-- Number of `start` events for a given tag name in an event log. -/
def countStartTag (name : String) : List BEvent → Nat
  | [] => 0
  | BEvent.start n _ :: es => (if n = name then 1 else 0) + countStartTag name es
  | BEvent.data _ :: es => countStartTag name es
  | BEvent.stop _ :: es => countStartTag name es

/-! ### Supporting lemmas -/

theorem dictGet_dictSet {α : Type} (l : List (String × α)) (k : String) (v : α) :
    dictGet (dictSet l k v) k = some v := by
  induction l with
  | nil => simp [dictSet, dictGet]
  | cons hd tl ih =>
    obtain ⟨k', v'⟩ := hd
    by_cases h : k' = k
    · simp [dictSet, dictGet, h]
    · simp [dictSet, dictGet, h, ih]

theorem allowedXmlChar_iff (c : Char) :
    allowedXmlChar c = true ↔ (32 ≤ c.toNat ∨ c = '\t' ∨ c = '\n' ∨ c = '\r') := by
  simp [allowedXmlChar, or_assoc]

theorem allowedXmlChar_eq_not_bad (c : Char) :
    allowedXmlChar c = !(decide (c.toNat < 32) && !(c = '\t' || c = '\n' || c = '\r')) := by
  by_cases h1 : c = '\t'
  · subst h1; decide
  by_cases h2 : c = '\n'
  · subst h2; decide
  by_cases h3 : c = '\r'
  · subst h3; decide
  by_cases h4 : 32 ≤ c.toNat
  · simp [allowedXmlChar, h1, h2, h3, h4, Nat.not_lt.mpr h4]
  · simp [allowedXmlChar, h1, h2, h3, h4, Nat.lt_of_not_le h4]

theorem sanitize_join_eq_filter (cs : List Char) :
    (((cs.filter (fun c => !(c = '\x00'))).map
        (fun c => if allowedXmlChar c then [c] else [])).flatten)
      = cs.filter allowedXmlChar := by
  induction cs with
  | nil => rfl
  | cons c cs ih =>
    by_cases h0 : c = '\x00'
    · subst h0
      have : allowedXmlChar '\x00' = false := by decide
      simp [List.filter_cons, this, ih]
    · by_cases ha : allowedXmlChar c
      · simp [List.filter_cons, h0, ha, ih]
      · simp [List.filter_cons, h0, ha, ih]

theorem sanitize_eq_filter (o : Option String) :
    (_sanitize_xml_text o).data = (o.getD "").data.filter allowedXmlChar := by
  match o with
  | none => rfl
  | some s =>
    show (_sanitize_xml_text (some s)).data = s.data.filter allowedXmlChar
    simp only [_sanitize_xml_text]
    by_cases hc : (s.data.contains '\x00'
        || s.data.any (fun c => c.toNat < 32 && !(c = '\t' || c = '\n' || c = '\r'))) = true
    · rw [if_pos hc]
      exact sanitize_join_eq_filter s.data
    · rw [if_neg hc]
      rw [Bool.or_eq_true, not_or] at hc
      obtain ⟨hA, hB⟩ := hc
      have hany := Bool.eq_false_iff.mpr hB
      have hall : ∀ c ∈ s.data, allowedXmlChar c = true := by
        intro c hcm
        have hc0 := (List.any_eq_false.mp hany) c hcm
        rw [allowedXmlChar_eq_not_bad, Bool.eq_false_iff.mpr hc0]
        rfl
      rw [List.filter_eq_self.mpr hall]

theorem countStartTag_append (n : String) (es fs : List BEvent) :
    countStartTag n (es ++ fs) = countStartTag n es + countStartTag n fs := by
  induction es with
  | nil => simp [countStartTag]
  | cons e es ih => cases e <;> simp [countStartTag, ih, Nat.add_assoc]

theorem imagedata_attribs_no_NSID (uri align : Option String) (scale : Option Int) :
    dictGet (imagedata_attribs uri align scale) NSID = none := by
  unfold imagedata_attribs
  cases uri <;> cases scale <;> cases align <;>
    simp [dictSet, dictGet, NSID] <;> split <;> simp [dictSet, dictGet]

/-! ### Claims -/

/-- C2: the sanitizer deletes (never replaces) exactly the characters below
0x20 other than tab, LF and CR, preserving all other characters in order
(it equals a filter of the input); its output contains no such control
character and no NUL; `None` maps to the empty string; and
`sanitize("A\x00B\x0CC") = "ABC"`.  It is total by construction. -/
theorem sanitize_spec (o : Option String) :
    (_sanitize_xml_text o).data = (o.getD "").data.filter allowedXmlChar ∧
    (∀ c ∈ (_sanitize_xml_text o).data,
      32 ≤ c.toNat ∨ c = '\t' ∨ c = '\n' ∨ c = '\r') ∧
    '\x00' ∉ (_sanitize_xml_text o).data ∧
    _sanitize_xml_text none = "" ∧
    _sanitize_xml_text (some "A\x00B\x0CC") = "ABC" := by
  refine ⟨sanitize_eq_filter o, ?_, ?_, rfl, by decide⟩
  · intro c hc
    rw [sanitize_eq_filter o] at hc
    exact (allowedXmlChar_iff c).mp (List.mem_filter.mp hc).2
  · intro h
    rw [sanitize_eq_filter o] at h
    have := (List.mem_filter.mp h).2
    exact absurd this (by decide)

/-- C8: walking a comment node, whatever its children, only reports a
diagnostic: it raises `SkipNode` (children never visited, no depart), and
the builder state — events, stack, fields, registers — is untouched, so the
comment's entire subtree contributes zero output elements and zero text. -/
theorem comment_zero_output (t : Translator) (cs : List Node) :
    walk (.comment cs) t =
      Except.ok { t with diagnostics := t.diagnostics ++ ["ignoring comment:"] } := by
  simp [walk, visit_comment, _print_error]

/-- C10: the first section-kind node with an empty identifier list makes
`visit_section` perform `node['ids'][0] = document_id` on an empty list,
an uncaught `IndexError`; the whole walk of such a section aborts with
that error, so translation requires the first section to carry at least
one identifier. -/
theorem first_section_requires_identifier (t : Translator) (cs : List Node) :
    visit_section { t with in_first_section := false } [] =
      Except.error "IndexError: list assignment index out of range" ∧
    walk (.section [] cs) { t with in_first_section := false } =
      Except.error "IndexError: list assignment index out of range" := by
  constructor
  · simp [visit_section]
  · simp [walk, visit_section, Bind.bind, Except.bind]

/-- C5: a field list with `author="Ada"` and `date="2024"` yields the
metadata map `[("author","Ada"), ("date","2024")]` and, in encounter order,
an `author`/`personname` wrapper holding text `"Ada"` (opened on entering
the field name, closed on leaving the field body) followed by a `pubdate`
element holding `"2024"`. -/
theorem author_date_field_list_run :
    walk (.fieldList [
        .field [.fieldName [.text "author"], .fieldBody [.paragraph [.text "Ada"]]],
        .field [.fieldName [.text "date"], .fieldBody [.paragraph [.text "2024"]]]])
      (initTranslator "book" "docid") =
    Except.ok { initTranslator "book" "docid" with
      fields := [("author", "Ada"), ("date", "2024")],
      events := [BEvent.start "info" [], BEvent.start "author" [],
        BEvent.start "personname" [], BEvent.data "Ada", BEvent.stop "personname",
        BEvent.stop "author", BEvent.start "pubdate" [], BEvent.data "2024",
        BEvent.stop "pubdate", BEvent.stop "info"] } := by
  rfl

/-- C4 counterexample: for the field list with the single unrecognized
entry `unknownfield="X"`, the field-body's children are NOT discarded:
`visit_paragraph` suppresses the `para` element while a field name is
captured, but `visit_Text` still emits the body text, so the character
data `"X"` leaks into the enclosing `info` element. -/
theorem unknown_field_text_leaks :
    walk (.fieldList [.field [.fieldName [.text "unknownfield"],
        .fieldBody [.paragraph [.text "X"]]]])
      (initTranslator "book" "docid") =
    Except.ok { initTranslator "book" "docid" with
      fields := [("unknownfield", "X")],
      events := [BEvent.start "info" [], BEvent.data "X", BEvent.stop "info"] } ∧
    BEvent.data "X" ∈
      ({ initTranslator "book" "docid" with
        fields := [("unknownfield", "X")],
        events := [BEvent.start "info" [], BEvent.data "X", BEvent.stop "info"] }
          : Translator).events := by
  exact ⟨rfl, by decide⟩

set_option maxHeartbeats 1000000 in
/-- C4 amended: an unrecognized field entry is recorded in the metadata map
and produces no output element anywhere, but the field body's text is still
emitted as bare character data into the enclosing `info` element; `author`
and `date` entries in the same field list are rendered correctly. -/
theorem unknown_field_recorded_not_wrapped :
    walk (.fieldList [
        .field [.fieldName [.text "author"], .fieldBody [.paragraph [.text "Ada"]]],
        .field [.fieldName [.text "unknownfield"], .fieldBody [.paragraph [.text "X"]]],
        .field [.fieldName [.text "date"], .fieldBody [.paragraph [.text "2024"]]]])
      (initTranslator "book" "docid") =
    Except.ok { initTranslator "book" "docid" with
      fields := [("author", "Ada"), ("unknownfield", "X"), ("date", "2024")],
      events := [BEvent.start "info" [], BEvent.start "author" [],
        BEvent.start "personname" [], BEvent.data "Ada", BEvent.stop "personname",
        BEvent.stop "author", BEvent.data "X", BEvent.start "pubdate" [],
        BEvent.data "2024", BEvent.stop "pubdate", BEvent.stop "info"] } := by
  rfl

/-- C1 counterexample: (i) a document whose first section carries no
identifier does not become the root element — `visit_section` aborts with
an `IndexError`; (ii) when a deferred identifier (`"pend"`) is set, the
root element's namespace id attribute is `"pend"`, not the document id
`"docid"`: `_push_element` lets the pending identifier overwrite the
`document_id` attribute supplied for the root. -/
theorem first_section_root_counterexample :
    visit_section (initTranslator "book" "docid") [] =
      Except.error "IndexError: list assignment index out of range" ∧
    Except.map (fun x => x.1.events)
      (visit_section
        { initTranslator "book" "docid" with next_element_id := some "pend" }
        ["orig"]) =
      Except.ok [BEvent.start "book" [(NSID, some "pend"), ("version", some "5.0")]] := by
  exact ⟨rfl, rfl⟩

/-- C1 amended: provided the node carries at least one identifier whenever
the in-place overwrite runs (always for the first section-kind node, and
for a later one exactly when a pending identifier is set) and no pending
identifier is set at the first section, the first section-kind node opens
the unique root element with the caller-supplied root tag, namespace id
`document_id` and `version="5.0"` (its own identifier being overwritten to
`document_id`), and every subsequent section-kind node opens a nested
`section` carrying the pending identifier if set, else its own first
identifier, else no id attribute. -/
theorem section_two_state_machine (t : Translator) (i p : String)
    (rest : List String) (hp : p ≠ "") :
    (visit_section { t with in_first_section := false, next_element_id := none }
        (i :: rest) =
      Except.ok ({ t with
        in_first_section := true
        next_element_id := none
        events := t.events ++ [BEvent.start t.document_type
          [(NSID, some t.document_id), ("version", some "5.0")]]
        estack := t.document_type :: t.estack }, t.document_id :: rest)) ∧
    (visit_section { t with in_first_section := true, next_element_id := some p }
        (i :: rest) =
      Except.ok ({ t with
        in_first_section := true
        next_element_id := none
        events := t.events ++ [BEvent.start "section" [(NSID, some p)]]
        estack := "section" :: t.estack }, p :: rest)) ∧
    (visit_section { t with in_first_section := true, next_element_id := none }
        (i :: rest) =
      Except.ok ({ t with
        in_first_section := true
        next_element_id := none
        events := t.events ++ [BEvent.start "section" [(NSID, some i)]]
        estack := "section" :: t.estack }, i :: rest)) ∧
    (visit_section { t with in_first_section := true, next_element_id := none } [] =
      Except.ok ({ t with
        in_first_section := true
        next_element_id := none
        events := t.events ++ [BEvent.start "section" []]
        estack := "section" :: t.estack }, [])) := by
  refine ⟨?_, ?_, ?_, ?_⟩ <;>
    simp [visit_section, sectionElse, _push_element, pyTruthy, dictGet, NSID, hp]

/-- Witness for the amended C1 theorem at a concrete translator state. -/
theorem section_two_state_machine_witness :
    (visit_section { initTranslator "book" "docid" with
        in_first_section := false, next_element_id := none } ["s1"] =
      Except.ok ({ initTranslator "book" "docid" with
        in_first_section := true
        next_element_id := none
        events := [BEvent.start "book" [(NSID, some "docid"), ("version", some "5.0")]]
        estack := ["book"] }, ["docid"])) ∧
    (visit_section { initTranslator "book" "docid" with
        in_first_section := true, next_element_id := some "pend" } ["s1"] =
      Except.ok ({ initTranslator "book" "docid" with
        in_first_section := true
        next_element_id := none
        events := [BEvent.start "section" [(NSID, some "pend")]]
        estack := ["section"] }, ["pend"])) ∧
    (visit_section { initTranslator "book" "docid" with
        in_first_section := true, next_element_id := none } ["s1"] =
      Except.ok ({ initTranslator "book" "docid" with
        in_first_section := true
        next_element_id := none
        events := [BEvent.start "section" [(NSID, some "s1")]]
        estack := ["section"] }, ["s1"])) ∧
    (visit_section { initTranslator "book" "docid" with
        in_first_section := true, next_element_id := none } [] =
      Except.ok ({ initTranslator "book" "docid" with
        in_first_section := true
        next_element_id := none
        events := [BEvent.start "section" []]
        estack := ["section"] }, [])) := by
  exact section_two_state_machine (initTranslator "book" "docid") "s1" "pend" []
    (by decide)

/-- C3: a (truthy) pending identifier is consumed by the very next element
open: `_push_element` writes it as the namespace id attribute of that
element and clears the register in the same step, so no later element can
receive the same pending value again; `visit_target` is what sets the
register from a target's `refid` (except the reserved `index-0`). -/
theorem pending_identifier_consumed_once (t u : Translator) (name : String)
    (attribs : Attribs) (p r : String) (hp : t.next_element_id = some p)
    (hp' : p ≠ "") (hr : r ≠ "index-0") :
    (_push_element t name attribs).next_element_id = none ∧
    (_push_element t name attribs).events =
      t.events ++ [BEvent.start name (dictSet attribs NSID (some p))] ∧
    dictGet (dictSet attribs NSID (some p)) NSID = some (some p) ∧
    (visit_target u (some r)).next_element_id = some r := by
  refine ⟨?_, ?_, dictGet_dictSet attribs NSID (some p), ?_⟩
  · simp [_push_element, pyTruthy, hp, hp']
  · simp [_push_element, pyTruthy, hp, hp']
  · simp [visit_target, hr]

/-- Witness for the C3 theorem at a concrete state. -/
theorem pending_identifier_consumed_once_witness :
    (_push_element { initTranslator "book" "docid" with next_element_id := some "tid" }
      "para" []).next_element_id = none ∧
    (_push_element { initTranslator "book" "docid" with next_element_id := some "tid" }
      "para" []).events = [] ++ [BEvent.start "para" (dictSet [] NSID (some "tid"))] ∧
    dictGet (dictSet [] NSID (some "tid")) NSID = some (some "tid") ∧
    (visit_target (initTranslator "book" "docid") (some "tid")).next_element_id =
      some "tid" := by
  exact pending_identifier_consumed_once
    { initTranslator "book" "docid" with next_element_id := some "tid" }
    (initTranslator "book" "docid") "para" [] "tid" "tid" rfl (by decide) (by decide)

/-- C9: when an element is opened with an explicitly supplied namespace id
attribute while a (truthy) pending identifier is set, the pending
identifier overwrites the explicit value, which is discarded, and the
register is cleared. -/
theorem pending_overrides_explicit_id (t : Translator) (name p v : String)
    (rest : Attribs) (hp : t.next_element_id = some p) (hp' : p ≠ "") :
    (_push_element t name ((NSID, some v) :: rest)).events =
      t.events ++ [BEvent.start name ((NSID, some p) :: rest)] ∧
    (_push_element t name ((NSID, some v) :: rest)).next_element_id = none := by
  constructor <;> simp [_push_element, pyTruthy, hp, hp', dictSet]

/-- Witness for the C9 theorem at a concrete state. -/
theorem pending_overrides_explicit_id_witness :
    (_push_element { initTranslator "book" "docid" with next_element_id := some "pend" }
      "section" ((NSID, some "own") :: [])).events =
      [] ++ [BEvent.start "section" ((NSID, some "pend") :: [])] ∧
    (_push_element { initTranslator "book" "docid" with next_element_id := some "pend" }
      "section" ((NSID, some "own") :: [])).next_element_id = none := by
  exact pending_overrides_explicit_id
    { initTranslator "book" "docid" with next_element_id := some "pend" }
    "section" "pend" "own" [] rfl (by decide)

/-- C6: popping with an empty element stack fails (the source's
`estack.pop()` raises; the spec names this StackImbalanceError), and
serializing with a non-empty stack fails, returning an error and hence no
bytes; by contrast a skip-and-report condition (a comment node, the
representative non-fatal case) is absorbed: the walk succeeds. -/
theorem stack_imbalance_fatal (t u : Translator) (cs : List Node)
    (ht : t.estack = []) (hu : u.estack ≠ []) :
    _pop_element t = Except.error "IndexError: pop from empty list" ∧
    astext u = Except.error "XMLSyntaxError: incomplete document" ∧
    (∀ v : Translator, walk (.comment cs) v =
      Except.ok { v with diagnostics := v.diagnostics ++ ["ignoring comment:"] }) := by
  refine ⟨?_, ?_, fun v => by simp [walk, visit_comment, _print_error]⟩
  · simp [_pop_element, ht]
  · simp [astext, hu]

/-- Witness for the C6 theorem at concrete states. -/
theorem stack_imbalance_fatal_witness :
    _pop_element (initTranslator "book" "docid") =
      Except.error "IndexError: pop from empty list" ∧
    astext { initTranslator "book" "docid" with estack := ["book"] } =
      Except.error "XMLSyntaxError: incomplete document" ∧
    (∀ v : Translator, walk (.comment []) v =
      Except.ok { v with diagnostics := v.diagnostics ++ ["ignoring comment:"] }) := by
  exact stack_imbalance_fatal (initTranslator "book" "docid")
    { initTranslator "book" "docid" with estack := ["book"] } [] rfl (by decide)

/-- C7: an image node with no enclosing figure opens exactly one
auto-created `mediaobject` wrapper, closed again on leaving the image (the
element stack is restored); an image inside a figure opens none of its own,
the figure's walk producing exactly one `mediaobject` around it — never two
nested media wrappers. -/
theorem image_single_media_wrapper (t : Translator) (uri alt align : Option String)
    (scale : Option Int) (ht : Bool) :
    ((walk (.image uri alt align scale ht)
        { t with in_figure := false, next_element_id := none }).map
      (fun tr => (countStartTag "mediaobject" tr.events, tr.estack, tr.in_figure)) =
      Except.ok (countStartTag "mediaobject" t.events + 1, t.estack, false)) ∧
    ((walk (.figure [.image uri alt align scale ht])
        { t with in_figure := false, next_element_id := none }).map
      (fun tr => (countStartTag "mediaobject" tr.events, tr.estack, tr.in_figure)) =
      Except.ok (countStartTag "mediaobject" t.events + 1, t.estack, false)) ∧
    (∀ u : Translator,
      (visit_image { u with in_figure := true, next_element_id := none }
          uri alt align scale ht).map
        (fun tr => countStartTag "mediaobject" tr.events) =
      Except.ok (countStartTag "mediaobject" u.events)) := by
  refine ⟨?_, ?_, fun u => ?_⟩ <;>
    cases alt <;> cases ht <;>
      simp [walk, walkChildren, visit_image, depart_image, visit_figure, depart_figure,
        _push_element, _pop_element, tbData, _print_error, pyTruthy, dictGet,
        imagedata_attribs_no_NSID, Except.map, Except.bind, bind, pure, Except.pure,
        countStartTag_append, countStartTag]

end SphinxDocbook
